import Mathlib

/-!
Shallow embedding of the interactive logic of the ROSHN Pulse front-end
(`frontend/roshn-pulse-app/src/App.tsx`).

The application is a single React component with three panels (risk /
imagery / extraction).  The behavioural content is in the four submit
handlers `submitBrain`, `submitVision`, `submitScribeFile` and
`submitScribeText`, the base-URL constant `API_BASE`, and the derived
presentation values `compliancePct` / `complianceTone` and the overlay /
export link resolution.

Embedding conventions:
* JS numbers are modelled as `ℚ` (integers as `ℤ` where the source value
  is an integer such as `Math.round`).
* `JSON.parse` is a platform primitive, not repository code; handlers take
  it as an explicit parameter `jsonParse : String → Option Json` (`none`
  models a thrown `SyntaxError`).
* A `fetch` call together with reading the response body is collapsed into
  one `FetchOutcome`: the transport may throw, the response may be non-ok
  (the source then throws `Error(await response.text())`), reading or
  parsing the body may throw, or a typed payload is produced.
* React state is an explicit `AppState` record; a handler maps the state,
  inputs and fetch outcome to a `HandlerResult` recording the final state,
  which busy value (if any) was set while the request was in flight, the
  network requests issued, and the `alert` messages shown.
-/

/-- JSON values, for request bodies (`JSON.stringify` arguments). -/
inductive Json where
  | null
  | bool (b : Bool)
  | num (q : ℚ)
  | str (s : String)
  | arr (elems : List Json)
  | obj (fields : List (String × Json))
deriving Repr

/-- `type RiskContributor = { feature: string; impact: number }`. -/
structure RiskContributor where
  feature : String
  impact : ℚ
deriving Repr

/-- `risk_band: "Low" | "Medium" | "High"`. -/
inductive RiskBand where
  | low
  | medium
  | high
deriving Repr, DecidableEq

/-- `type BrainResponse` from App.tsx. -/
structure BrainResponse where
  risk_score : ℚ
  risk_band : RiskBand
  top_contributors : List RiskContributor
deriving Repr

/-- `type VisionDetection` from App.tsx. -/
structure VisionDetection where
  cls : String
  bbox : ℚ × ℚ × ℚ × ℚ
  conf : ℚ
deriving Repr

/-- `type VisionResponse` from App.tsx.  `compliance_rate` is declared
`number` in TS, but the component guards with
`typeof visionResult?.compliance_rate === "number"`, so at runtime it may
be absent or non-numeric: we model it as `Option ℚ`.  `overlay_url?` is
optional in the TS type. -/
structure VisionResponse where
  detections : List VisionDetection
  persons : ℤ
  helmeted_persons : ℤ
  compliance_rate : Option ℚ
  overlay_url : Option String
deriving Repr

/-- `type ScribeIssue = { type: string; summary: string }`. -/
structure ScribeIssue where
  type : String
  summary : String
deriving Repr

/-- `type ScribeResponse` from App.tsx: every field optional. -/
structure ScribeResponse where
  date : Option String := none
  project : Option String := none
  location : Option String := none
  subcontractors : Option (List String) := none
  personnel_count : Option (Option ℤ) := none
  completed_tasks : Option (List String) := none
  issues : Option (List ScribeIssue) := none
  safety_observations : Option (List String) := none
  low_confidence : Option Bool := none
  confidence : Option (List (String × ℚ)) := none
  export_csv_url : Option String := none
deriving Repr

/-- The three values the shared busy flag can carry besides `null`:
`useState<null | "brain" | "vision" | "scribe">`. -/
inductive Panel where
  | brain
  | vision
  | scribe
deriving Repr, DecidableEq

/-- The React state of `App` that the submit handlers read and write. -/
structure AppState where
  busy : Option Panel
  brainJson : String
  brainResult : Option BrainResponse
  visionResult : Option VisionResponse
  visionOverlay : Option String
  visionFileName : String
  scribeText : String
  scribeResult : Option ScribeResponse

/-- A file picked through an `<input type="file">` element. -/
structure FileRef where
  name : String
deriving Repr

/-- Request body: either `JSON.stringify`-ed JSON or a multipart
`FormData` carrying one file under the field name `file`. -/
inductive RequestBody where
  | jsonBody (payload : Json)
  | formData (file : FileRef)
deriving Repr

/-- One HTTP request issued by `fetch`. -/
structure Request where
  url : String
  method : String
  body : RequestBody
deriving Repr

/-- Outcome of one `fetch` call together with reading its body:
* `transportError`: `fetch` itself throws (network failure);
* `httpError`: `response.ok` is false — the source reads the body as text
  and throws `Error(text)` (a throw while reading that text lands in the
  same catch);
* `bodyError`: `response.ok` is true but `response.json()` throws;
* `success data`: the body parsed as the expected typed shape. -/
inductive FetchOutcome (α : Type) where
  | transportError
  | httpError
  | bodyError
  | success (data : α)

/-- An outcome that ends in the `catch` block of a handler. -/
def FetchOutcome.isFailure {α : Type} : FetchOutcome α → Bool
  | .success _ => false
  | _ => true

/-- What one handler invocation did: final state, the busy value set while
the request was in flight (`none` when the handler aborted before
`setBusy`), the requests issued, and the `alert` messages shown. -/
structure HandlerResult where
  state : AppState
  busySet : Option Panel
  calls : List Request
  alerts : List String

/-- The fallback in `import.meta.env.VITE_API_BASE?.toString() ||
"http://localhost:8000"`. -/
def defaultApiBase : String := "http://localhost:8000"

/-- `const API_BASE = import.meta.env.VITE_API_BASE?.toString() ||
"http://localhost:8000"` — `env` is the externally configured
`VITE_API_BASE` value (`none` when unset); `||` makes the empty string
fall back to the default too. -/
def API_BASE (env : Option String) : String :=
  match env with
  | some v => if v = "" then defaultApiBase else v
  | none => defaultApiBase

/-- Alert shown by `submitBrain` when `JSON.parse` throws. -/
def brainInvalidJsonAlert : String :=
  "JSON is invalid. Please fix the payload and try again."

/-- Alert shown by `submitBrain` in its catch block. -/
def brainFailureAlert : String :=
  "Unable to score the project right now. Check the backend."

/-- Alert shown by `submitVision` when no file is selected. -/
def visionNoFileAlert : String := "Please choose an image file first."

/-- Alert shown by `submitVision` in its catch block. -/
def visionFailureAlert : String :=
  "Unable to analyse the image. Please check the backend logs."

/-- Alert shown by `submitScribeFile` when no file is selected. -/
def scribeNoFileAlert : String := "Please select a PDF or text file."

/-- Alert shown by `submitScribeFile` in its catch block. -/
def scribeFileFailureAlert : String :=
  "File extraction failed. Check the backend service."

/-- Alert shown by `submitScribeText` in its catch block. -/
def scribeTextFailureAlert : String :=
  "Text extraction failed. Please retry once the backend is ready."

/-- JS `String.prototype.trim`: strip leading and trailing whitespace.
Defined structurally over the character list so that it evaluates inside
the kernel. -/
def jsTrim (s : String) : String :=
  ⟨((s.data.dropWhile Char.isWhitespace).reverse.dropWhile
      Char.isWhitespace).reverse⟩

/-- `async function submitBrain(event)`:
parse `brainJson || "{}"`; on parse failure alert and return; otherwise
`setBusy("brain")`, POST the payload as JSON to `/predict-delay`, store
the parsed `BrainResponse` on success, alert on any failure, and clear the
busy flag in `finally`. -/
def submitBrain (base : String) (jsonParse : String → Option Json)
    (net : FetchOutcome BrainResponse) (s : AppState) : HandlerResult :=
  match jsonParse (if s.brainJson = "" then "{}" else s.brainJson) with
  | none =>
      { state := s, busySet := none, calls := [],
        alerts := [brainInvalidJsonAlert] }
  | some payload =>
      let req : Request :=
        { url := base ++ "/predict-delay", method := "POST",
          body := .jsonBody payload }
      match net with
      | .success data =>
          { state := { s with busy := none, brainResult := some data },
            busySet := some .brain, calls := [req], alerts := [] }
      | _ =>
          { state := { s with busy := none },
            busySet := some .brain, calls := [req],
            alerts := [brainFailureAlert] }

/-- Overlay resolution inside `submitVision`:
`data?.overlay_url ? API_BASE + data.overlay_url : null` — JS truthiness
makes both an absent and an empty `overlay_url` yield `null`. -/
def resolveOverlay (base : String) (overlay_url : Option String) :
    Option String :=
  match overlay_url with
  | some u => if u = "" then none else some (base ++ u)
  | none => none

/-- `async function submitVision(event)`:
require a selected file (alert and return otherwise); `setBusy("vision")`,
POST the file as multipart form data to `/analyze-image`; on success store
the `VisionResponse`, resolve the overlay URL against the base and record
the file name; alert on any failure; clear busy in `finally`. -/
def submitVision (base : String) (file : Option FileRef)
    (net : FetchOutcome VisionResponse) (s : AppState) : HandlerResult :=
  match file with
  | none =>
      { state := s, busySet := none, calls := [],
        alerts := [visionNoFileAlert] }
  | some f =>
      let req : Request :=
        { url := base ++ "/analyze-image", method := "POST",
          body := .formData f }
      match net with
      | .success data =>
          { state :=
              { s with busy := none,
                       visionResult := some data,
                       visionOverlay := resolveOverlay base data.overlay_url,
                       visionFileName := f.name },
            busySet := some .vision, calls := [req], alerts := [] }
      | _ =>
          { state := { s with busy := none },
            busySet := some .vision, calls := [req],
            alerts := [visionFailureAlert] }

/-- `async function submitScribeFile(event)`:
require a selected file (alert and return otherwise); `setBusy("scribe")`,
POST the file as multipart form data to `/extract`; store the
`ScribeResponse` on success; alert on any failure; clear busy in
`finally`. -/
def submitScribeFile (base : String) (file : Option FileRef)
    (net : FetchOutcome ScribeResponse) (s : AppState) : HandlerResult :=
  match file with
  | none =>
      { state := s, busySet := none, calls := [],
        alerts := [scribeNoFileAlert] }
  | some f =>
      let req : Request :=
        { url := base ++ "/extract", method := "POST", body := .formData f }
      match net with
      | .success data =>
          { state := { s with busy := none, scribeResult := some data },
            busySet := some .scribe, calls := [req], alerts := [] }
      | _ =>
          { state := { s with busy := none },
            busySet := some .scribe, calls := [req],
            alerts := [scribeFileFailureAlert] }

/-- `async function submitScribeText(event)`:
`if (!scribeText.trim()) return;` — silent abort, no alert; otherwise
`setBusy("scribe")`, POST `JSON.stringify({ text: scribeText })` (the
original, untrimmed text) to `/extract`; store the `ScribeResponse` on
success; alert on any failure; clear busy in `finally`. -/
def submitScribeText (base : String)
    (net : FetchOutcome ScribeResponse) (s : AppState) : HandlerResult :=
  if jsTrim s.scribeText = "" then
    { state := s, busySet := none, calls := [], alerts := [] }
  else
    let req : Request :=
      { url := base ++ "/extract", method := "POST",
        body := .jsonBody (Json.obj [("text", Json.str s.scribeText)]) }
    match net with
    | .success data =>
        { state := { s with busy := none, scribeResult := some data },
          busySet := some .scribe, calls := [req], alerts := [] }
    | _ =>
        { state := { s with busy := none },
          busySet := some .scribe, calls := [req],
          alerts := [scribeTextFailureAlert] }

/-- JS `Math.round` on a rational: round half towards positive
infinity. -/
def mathRound (q : ℚ) : ℤ := ⌊q + 1 / 2⌋

/-- `const compliancePct = typeof visionResult?.compliance_rate ===
"number" ? Math.round((visionResult.compliance_rate ?? 0) * 100) :
null`. -/
def compliancePct (rate : Option ℚ) : Option ℤ :=
  match rate with
  | some r => some (mathRound (r * 100))
  | none => none

/-- Presentation tone of a pill: `"ok" | "warn" | "bad"`. -/
inductive Tone where
  | ok
  | warn
  | bad
deriving Repr, DecidableEq

/-- `const complianceTone = compliancePct === null ? undefined :
compliancePct >= 90 ? "ok" : compliancePct >= 70 ? "warn" : "bad"`. -/
def complianceTone (pct : Option ℤ) : Option Tone :=
  match pct with
  | none => none
  | some p => some (if p ≥ 90 then .ok else if p ≥ 70 then .warn else .bad)

/-- The compliance figure rendered in the Vision result card:
`typeof compliancePct === "number" ? compliancePct + "%" : "--"`. -/
def compliancePctDisplay (pct : Option ℤ) : String :=
  match pct with
  | some p => toString p ++ "%"
  | none => "--"

/-- Whether the Vision panel renders an overlay image
(`visionOverlay ? <img .../> : "No overlay yet"`). -/
def overlayShown (s : AppState) : Bool := s.visionOverlay.isSome

/-- The CSV export link of the Scribe panel:
`scribeResult?.export_csv_url ? API_BASE + scribeResult.export_csv_url :
null` (again JS truthiness: absent or empty yields no link). -/
def exportLink (base : String) (s : AppState) : Option String :=
  match s.scribeResult with
  | some r =>
      match r.export_csv_url with
      | some u => if u = "" then none else some (base ++ u)
      | none => none
  | none => none

/-! ### Concrete sample values used by the witness theorems -/

/-- A sample app state: nothing busy, empty risk payload, empty scribe
text, no stored results. -/
def sampleState : AppState :=
  { busy := none, brainJson := "", brainResult := none,
    visionResult := none, visionOverlay := none, visionFileName := "",
    scribeText := "", scribeResult := none }

/-- A sample state whose risk payload parses and whose scribe text is
non-blank. -/
def readyState : AppState :=
  { sampleState with scribeText := "  Crew: 42  " }

/-- A parse oracle that always fails (models `JSON.parse` throwing). -/
def noParse : String → Option Json := fun _ => none

/-- A parse oracle defined only on the literal empty object. -/
def parseEmptyObj : String → Option Json :=
  fun s => if s = "{}" then some (Json.obj []) else none

/-- A sample picked file. -/
def sampleFile : FileRef := { name := "site.jpg" }

/-- A sample risk response, the scenario of spec section 8. -/
def sampleBrainResponse : BrainResponse :=
  { risk_score := 73 / 100, risk_band := .high,
    top_contributors := [{ feature := "Budget", impact := 21 / 100 }] }

/-- A sample imagery response with an overlay path. -/
def sampleVisionResponse : VisionResponse :=
  { detections := [], persons := 5, helmeted_persons := 4,
    compliance_rate := some (95 / 100),
    overlay_url := some "/overlays/x.png" }

/-- A sample extraction response with an export link. -/
def sampleScribeResponse : ScribeResponse :=
  { project := some "Sedra", export_csv_url := some "/exports/report.csv" }

/-! ### Claims -/

/-- Claim C1: for every panel, a missing or invalid required input (risk
payload that fails JSON parse, no file for imagery or the extraction file
path, blank text for the extraction text path) makes the submit handler
return with no network call, the state (hence busy flag and stored
result) unchanged, and the busy flag never set. -/
theorem C1_validation_no_network (base : String)
    (p : String → Option Json)
    (nb : FetchOutcome BrainResponse) (nv : FetchOutcome VisionResponse)
    (nf nt : FetchOutcome ScribeResponse) (s : AppState)
    (hb : p (if s.brainJson = "" then "{}" else s.brainJson) = none)
    (ht : jsTrim s.scribeText = "") :
    (submitBrain base p nb s).calls = [] ∧
    (submitBrain base p nb s).state = s ∧
    (submitBrain base p nb s).busySet = none ∧
    (submitVision base none nv s).calls = [] ∧
    (submitVision base none nv s).state = s ∧
    (submitVision base none nv s).busySet = none ∧
    (submitScribeFile base none nf s).calls = [] ∧
    (submitScribeFile base none nf s).state = s ∧
    (submitScribeFile base none nf s).busySet = none ∧
    (submitScribeText base nt s).calls = [] ∧
    (submitScribeText base nt s).state = s ∧
    (submitScribeText base nt s).busySet = none := by
  refine ⟨?_, ?_, ?_, ?_, ?_, ?_, ?_, ?_, ?_, ?_, ?_, ?_⟩ <;>
    simp [submitBrain, submitVision, submitScribeFile, submitScribeText,
      hb, ht]

/-- Witness for C1 at a concrete state, parser and outcomes. -/
theorem C1_validation_no_network_witness :
    (submitBrain defaultApiBase noParse .transportError sampleState).calls
        = [] ∧
    (submitScribeText defaultApiBase .transportError sampleState).state
        = sampleState :=
  ⟨(C1_validation_no_network defaultApiBase noParse .transportError
      .transportError .transportError .transportError sampleState rfl
      rfl).1,
   (C1_validation_no_network defaultApiBase noParse .transportError
      .transportError .transportError .transportError sampleState rfl
      rfl).2.2.2.2.2.2.2.2.2.2.1⟩

/-- Claim C2: every handler that begins a request (sets the busy flag)
clears the busy flag back to idle (`none`) on every completion path —
success, non-ok HTTP status, transport failure, and a throw while reading
or parsing the body. -/
theorem C2_busy_always_cleared (base : String)
    (p : String → Option Json) (j : Json) (fv fs : FileRef)
    (nb : FetchOutcome BrainResponse) (nv : FetchOutcome VisionResponse)
    (nf nt : FetchOutcome ScribeResponse) (s : AppState)
    (hp : p (if s.brainJson = "" then "{}" else s.brainJson) = some j)
    (ht : jsTrim s.scribeText ≠ "") :
    ((submitBrain base p nb s).busySet = some Panel.brain ∧
      (submitBrain base p nb s).state.busy = none) ∧
    ((submitVision base (some fv) nv s).busySet = some Panel.vision ∧
      (submitVision base (some fv) nv s).state.busy = none) ∧
    ((submitScribeFile base (some fs) nf s).busySet = some Panel.scribe ∧
      (submitScribeFile base (some fs) nf s).state.busy = none) ∧
    ((submitScribeText base nt s).busySet = some Panel.scribe ∧
      (submitScribeText base nt s).state.busy = none) := by
  refine ⟨⟨?_, ?_⟩, ⟨?_, ?_⟩, ⟨?_, ?_⟩, ⟨?_, ?_⟩⟩ <;>
  · first
    | (cases nb <;> simp [submitBrain, hp])
    | (cases nv <;> simp [submitVision])
    | (cases nf <;> simp [submitScribeFile])
    | (cases nt <;> simp [submitScribeText, ht])

/-- Witness for C2: the brain handler on a body-parse throw, and the
scribe text handler on success, both end idle. -/
theorem C2_busy_always_cleared_witness :
    (submitBrain defaultApiBase parseEmptyObj .bodyError
        readyState).state.busy = none ∧
    (submitScribeText defaultApiBase
        (.success sampleScribeResponse) readyState).state.busy = none :=
  ⟨(C2_busy_always_cleared defaultApiBase parseEmptyObj (Json.obj [])
      sampleFile sampleFile .bodyError .transportError .transportError
      (.success sampleScribeResponse) readyState rfl
      (by decide)).1.2,
   (C2_busy_always_cleared defaultApiBase parseEmptyObj (Json.obj [])
      sampleFile sampleFile .bodyError .transportError .transportError
      (.success sampleScribeResponse) readyState rfl
      (by decide)).2.2.2.2⟩

/-- A state holding previously stored results for all three panels. -/
def storedState : AppState :=
  { readyState with brainResult := some sampleBrainResponse,
                    visionResult := some sampleVisionResponse,
                    visionOverlay := some "http://localhost:8000/overlays/x.png",
                    scribeResult := some sampleScribeResponse }

/-- Claim C3: when a submission fails (non-2xx status, transport error,
or response-parsing error) the final state is exactly the prior state
with the busy flag reset to idle — in particular every previously stored
result is unchanged. -/
theorem C3_failure_preserves_result (base : String)
    (p : String → Option Json) (j : Json) (fv fs : FileRef)
    (nb : FetchOutcome BrainResponse) (nv : FetchOutcome VisionResponse)
    (nf nt : FetchOutcome ScribeResponse) (s : AppState)
    (hp : p (if s.brainJson = "" then "{}" else s.brainJson) = some j)
    (ht : jsTrim s.scribeText ≠ "")
    (hb : nb.isFailure = true) (hv : nv.isFailure = true)
    (hf : nf.isFailure = true) (hn : nt.isFailure = true) :
    (submitBrain base p nb s).state = { s with busy := none } ∧
    (submitVision base (some fv) nv s).state = { s with busy := none } ∧
    (submitScribeFile base (some fs) nf s).state
      = { s with busy := none } ∧
    (submitScribeText base nt s).state = { s with busy := none } := by
  refine ⟨?_, ?_, ?_, ?_⟩
  · cases nb <;> simp_all [submitBrain, FetchOutcome.isFailure]
  · cases nv <;> simp_all [submitVision, FetchOutcome.isFailure]
  · cases nf <;> simp_all [submitScribeFile, FetchOutcome.isFailure]
  · cases nt <;> simp_all [submitScribeText, FetchOutcome.isFailure]

/-- Witness for C3 at a concrete stored state and failure outcomes. -/
theorem C3_failure_preserves_result_witness :
    (submitBrain defaultApiBase parseEmptyObj .httpError storedState).state
      = { storedState with busy := none } ∧
    (submitVision defaultApiBase (some sampleFile) .transportError
        storedState).state = { storedState with busy := none } :=
  ⟨(C3_failure_preserves_result defaultApiBase parseEmptyObj (Json.obj [])
      sampleFile sampleFile .httpError .transportError .bodyError
      .httpError storedState rfl (by decide) rfl rfl rfl rfl).1,
   (C3_failure_preserves_result defaultApiBase parseEmptyObj (Json.obj [])
      sampleFile sampleFile .httpError .transportError .bodyError
      .httpError storedState rfl (by decide) rfl rfl rfl rfl).2.1⟩

/-- Claim C4: on a successful response with a body of the expected shape,
each panel replaces its stored result wholesale with the parsed body —
no merging with the prior result and no field transformation. -/
theorem C4_success_replaces_result (base : String)
    (p : String → Option Json) (j : Json) (fv fs : FileRef)
    (db : BrainResponse) (dv : VisionResponse) (df dt : ScribeResponse)
    (s : AppState)
    (hp : p (if s.brainJson = "" then "{}" else s.brainJson) = some j)
    (ht : jsTrim s.scribeText ≠ "") :
    (submitBrain base p (.success db) s).state.brainResult = some db ∧
    (submitVision base (some fv) (.success dv) s).state.visionResult
      = some dv ∧
    (submitScribeFile base (some fs) (.success df) s).state.scribeResult
      = some df ∧
    (submitScribeText base (.success dt) s).state.scribeResult
      = some dt := by
  refine ⟨?_, ?_, ?_, ?_⟩ <;>
    simp [submitBrain, submitVision, submitScribeFile, submitScribeText,
      hp, ht]

/-- Witness for C4 on the sample responses, starting from a state that
already holds different results. -/
theorem C4_success_replaces_result_witness :
    (submitBrain defaultApiBase parseEmptyObj
        (.success sampleBrainResponse) storedState).state.brainResult
      = some sampleBrainResponse ∧
    (submitScribeText defaultApiBase (.success sampleScribeResponse)
        storedState).state.scribeResult = some sampleScribeResponse :=
  ⟨(C4_success_replaces_result defaultApiBase parseEmptyObj (Json.obj [])
      sampleFile sampleFile sampleBrainResponse sampleVisionResponse
      sampleScribeResponse sampleScribeResponse storedState rfl
      (by decide)).1,
   (C4_success_replaces_result defaultApiBase parseEmptyObj (Json.obj [])
      sampleFile sampleFile sampleBrainResponse sampleVisionResponse
      sampleScribeResponse sampleScribeResponse storedState rfl
      (by decide)).2.2.2⟩

/-- Claim C5: the displayed compliance percentage is
`Math.round(rate * 100)` rendered with a percent sign, and the tone bands
are cut at 90 and 70: `pct ≥ 90` is the good band, `70 ≤ pct < 90` the
monitor band, `pct < 70` the critical band; concretely a rate of `0.95`
displays `95%` with the good tone, `0.75` gives the monitor tone and
`0.5` the critical tone. -/
theorem C5_compliance_bands (r : ℚ) (q : ℤ) :
    compliancePct (some r) = some (mathRound (r * 100)) ∧
    complianceTone (some q)
      = some (if q ≥ 90 then Tone.ok
              else if q ≥ 70 then Tone.warn else Tone.bad) ∧
    compliancePctDisplay (compliancePct (some (95 / 100))) = "95%" ∧
    complianceTone (compliancePct (some (95 / 100))) = some Tone.ok ∧
    complianceTone (compliancePct (some (75 / 100))) = some Tone.warn ∧
    complianceTone (compliancePct (some (1 / 2))) = some Tone.bad := by
  have h95 : mathRound ((95 : ℚ) / 100 * 100) = 95 := by
    rw [mathRound, Int.floor_eq_iff]
    norm_num
  have h75 : mathRound ((75 : ℚ) / 100 * 100) = 75 := by
    rw [mathRound, Int.floor_eq_iff]
    norm_num
  have h50 : mathRound ((1 : ℚ) / 2 * 100) = 50 := by
    rw [mathRound, Int.floor_eq_iff]
    norm_num
  refine ⟨rfl, rfl, ?_, ?_, ?_, ?_⟩
  · simp only [compliancePct, compliancePctDisplay]
    rw [h95]
    decide
  · simp only [compliancePct, complianceTone]
    rw [h95]
    decide
  · simp only [compliancePct, complianceTone]
    rw [h75]
    decide
  · simp only [compliancePct, complianceTone]
    rw [h50]
    decide

/-- Claim C6: a successful imagery response carrying a (non-empty,
server-relative) overlay path stores the base URL concatenated with that
path as the overlay reference; with no overlay path, the stored overlay
is `none` and no overlay is rendered. -/
theorem C6_overlay_resolution (base u : String) (fv : FileRef)
    (dv : VisionResponse) (s : AppState) (hu : u ≠ "") :
    (dv.overlay_url = some u →
      (submitVision base (some fv) (.success dv) s).state.visionOverlay
        = some (base ++ u)) ∧
    (dv.overlay_url = none →
      (submitVision base (some fv) (.success dv) s).state.visionOverlay
          = none ∧
        overlayShown (submitVision base (some fv) (.success dv) s).state
          = false) := by
  constructor
  · intro h
    simp [submitVision, resolveOverlay, h, hu]
  · intro h
    simp [submitVision, resolveOverlay, h, overlayShown]

/-- Witness for C6: the spec example — base `https://api.example.com`
and overlay path `/overlays/x.png` resolve to
`https://api.example.com/overlays/x.png`. -/
theorem C6_overlay_resolution_witness :
    (submitVision "https://api.example.com" (some sampleFile)
        (.success sampleVisionResponse) sampleState).state.visionOverlay
      = some "https://api.example.com/overlays/x.png" :=
  ((C6_overlay_resolution "https://api.example.com" "/overlays/x.png"
      sampleFile sampleVisionResponse sampleState (by decide)).1
    rfl).trans (by decide)

/-- A state whose scribe textarea holds whitespace only. -/
def whitespaceState : AppState := { sampleState with scribeText := "   " }

/-- Counterexample to claim C7: with whitespace-only extraction text the
handler aborts (no network call) but shows no user notice at all — the
alert list is empty, contradicting the claim that every local
input-validation failure is reported via a blocking notice. -/
theorem C7_counterexample :
    jsTrim whitespaceState.scribeText = "" ∧
    (submitScribeText defaultApiBase .transportError
        whitespaceState).calls = [] ∧
    (submitScribeText defaultApiBase .transportError
        whitespaceState).alerts = [] := by
  have h : jsTrim whitespaceState.scribeText = "" := by decide
  exact ⟨h, by simp [submitScribeText, h], by simp [submitScribeText, h]⟩

/-- Claim C7 (amended): local input-validation failures on the risk
payload (malformed JSON), the imagery file (none selected) and the
extraction file path (none selected) are reported immediately via a
blocking alert before the handler aborts without any network call; the
extraction text path with empty or whitespace-only text instead aborts
silently — no notice and no network call (its submit button is disabled
for blank text). -/
theorem C7_amended_validation_alerts (base : String)
    (p : String → Option Json)
    (nb : FetchOutcome BrainResponse) (nv : FetchOutcome VisionResponse)
    (nf nt : FetchOutcome ScribeResponse) (s : AppState)
    (hb : p (if s.brainJson = "" then "{}" else s.brainJson) = none)
    (ht : jsTrim s.scribeText = "") :
    ((submitBrain base p nb s).alerts = [brainInvalidJsonAlert] ∧
      (submitBrain base p nb s).calls = []) ∧
    ((submitVision base none nv s).alerts = [visionNoFileAlert] ∧
      (submitVision base none nv s).calls = []) ∧
    ((submitScribeFile base none nf s).alerts = [scribeNoFileAlert] ∧
      (submitScribeFile base none nf s).calls = []) ∧
    ((submitScribeText base nt s).alerts = [] ∧
      (submitScribeText base nt s).calls = []) := by
  refine ⟨⟨?_, ?_⟩, ⟨?_, ?_⟩, ⟨?_, ?_⟩, ⟨?_, ?_⟩⟩ <;>
    simp [submitBrain, submitVision, submitScribeFile, submitScribeText,
      hb, ht]

/-- Witness for the amended C7 at a concrete state and parser. -/
theorem C7_amended_validation_alerts_witness :
    (submitBrain defaultApiBase noParse .transportError
        sampleState).alerts = [brainInvalidJsonAlert] ∧
    (submitScribeText defaultApiBase .transportError sampleState).alerts
      = [] :=
  ⟨(C7_amended_validation_alerts defaultApiBase noParse .transportError
      .transportError .transportError .transportError sampleState rfl
      (by decide)).1.1,
   (C7_amended_validation_alerts defaultApiBase noParse .transportError
      .transportError .transportError .transportError sampleState rfl
      (by decide)).2.2.2.1⟩

/-- Claim C8: all three endpoints (`/predict-delay`, `/analyze-image`,
`/extract`) and the overlay / export reference resolution use the single
configured base URL `API_BASE`; when the configured value is absent (or
empty, by JS truthiness) the fixed default `http://localhost:8000` is
used. -/
theorem C8_single_base_url (env : Option String)
    (p : String → Option Json) (j : Json) (fv fs : FileRef)
    (nb : FetchOutcome BrainResponse) (nv : FetchOutcome VisionResponse)
    (nf nt : FetchOutcome ScribeResponse)
    (dv : VisionResponse) (r : ScribeResponse) (u w : String)
    (s : AppState)
    (hp : p (if s.brainJson = "" then "{}" else s.brainJson) = some j)
    (ht : jsTrim s.scribeText ≠ "")
    (hv : dv.overlay_url = some u) (hu : u ≠ "")
    (hr : r.export_csv_url = some w) (hw : w ≠ "") :
    API_BASE none = "http://localhost:8000" ∧
    API_BASE (some "") = "http://localhost:8000" ∧
    (submitBrain (API_BASE env) p nb s).calls.map Request.url
      = [API_BASE env ++ "/predict-delay"] ∧
    (submitVision (API_BASE env) (some fv) nv s).calls.map Request.url
      = [API_BASE env ++ "/analyze-image"] ∧
    (submitScribeFile (API_BASE env) (some fs) nf s).calls.map Request.url
      = [API_BASE env ++ "/extract"] ∧
    (submitScribeText (API_BASE env) nt s).calls.map Request.url
      = [API_BASE env ++ "/extract"] ∧
    (submitVision (API_BASE env) (some fv) (.success dv)
        s).state.visionOverlay = some (API_BASE env ++ u) ∧
    exportLink (API_BASE env) { s with scribeResult := some r }
      = some (API_BASE env ++ w) := by
  refine ⟨rfl, rfl, ?_, ?_, ?_, ?_, ?_, ?_⟩
  · cases nb <;> simp [submitBrain, hp]
  · cases nv <;> simp [submitVision]
  · cases nf <;> simp [submitScribeFile]
  · cases nt <;> simp [submitScribeText, ht]
  · simp [submitVision, resolveOverlay, hv, hu]
  · simp [exportLink, hr, hw]

/-- Witness for C8: with no configured value every request goes to the
local default. -/
theorem C8_single_base_url_witness :
    (submitBrain (API_BASE none) parseEmptyObj .httpError
        storedState).calls.map Request.url
      = ["http://localhost:8000/predict-delay"] ∧
    exportLink (API_BASE none)
        { storedState with scribeResult := some sampleScribeResponse }
      = some "http://localhost:8000/exports/report.csv" :=
  ⟨((C8_single_base_url none parseEmptyObj (Json.obj []) sampleFile
      sampleFile .httpError .httpError .httpError .httpError
      sampleVisionResponse sampleScribeResponse "/overlays/x.png"
      "/exports/report.csv" storedState rfl (by decide) rfl (by decide)
      rfl (by decide)).2.2.1).trans (by decide),
   ((C8_single_base_url none parseEmptyObj (Json.obj []) sampleFile
      sampleFile .httpError .httpError .httpError .httpError
      sampleVisionResponse sampleScribeResponse "/overlays/x.png"
      "/exports/report.csv" storedState rfl (by decide) rfl (by decide)
      rfl (by decide)).2.2.2.2.2.2.2).trans (by decide)⟩

/-- Claim C9: with an empty risk payload textarea, submission does not
report a JSON parse failure — the empty string is replaced by the literal
empty-object text before parsing, so (whenever the platform parser maps
that literal to the empty object) an empty JSON object is sent as the
request body. -/
theorem C9_empty_payload_sends_empty_object (base : String)
    (p : String → Option Json)
    (nb : FetchOutcome BrainResponse) (s : AppState)
    (he : s.brainJson = "")
    (hp : p "{}" = some (Json.obj [])) :
    (submitBrain base p nb s).calls
      = [{ url := base ++ "/predict-delay", method := "POST",
           body := .jsonBody (Json.obj []) }] ∧
    brainInvalidJsonAlert ∉ (submitBrain base p nb s).alerts := by
  constructor
  · cases nb <;> simp [submitBrain, he, hp]
  · cases nb <;>
      simp [submitBrain, he, hp, brainInvalidJsonAlert,
        brainFailureAlert]

/-- Witness for C9 at the sample state (whose payload text is empty). -/
theorem C9_empty_payload_sends_empty_object_witness :
    (submitBrain defaultApiBase parseEmptyObj .httpError
        sampleState).calls
      = [{ url := defaultApiBase ++ "/predict-delay", method := "POST",
           body := .jsonBody (Json.obj []) }] :=
  (C9_empty_payload_sends_empty_object defaultApiBase parseEmptyObj
    .httpError sampleState rfl rfl).1

/-- Claim C10: the extraction text path sends the original untrimmed
textarea content as the `text` field of the JSON body — trimming is used
only in the submission guard, so any leading and trailing whitespace of
an accepted input reaches the network unchanged. -/
theorem C10_untrimmed_text_sent (base : String)
    (nt : FetchOutcome ScribeResponse) (s : AppState)
    (ht : jsTrim s.scribeText ≠ "") :
    (submitScribeText base nt s).calls
      = [{ url := base ++ "/extract", method := "POST",
           body := .jsonBody
             (Json.obj [("text", Json.str s.scribeText)]) }] := by
  cases nt <;> simp [submitScribeText, ht]

/-- Witness for C10: text with leading and trailing spaces is sent
verbatim. -/
theorem C10_untrimmed_text_sent_witness :
    (submitScribeText defaultApiBase .httpError readyState).calls
      = [{ url := defaultApiBase ++ "/extract", method := "POST",
           body := .jsonBody
             (Json.obj [("text", Json.str "  Crew: 42  ")]) }] :=
  C10_untrimmed_text_sent defaultApiBase .httpError readyState
    (by decide)
